import Mathlib

/-!
Verification of the asset / loader core (src/index.ts).

The development shallowly embeds the two components of the library:

* `asset` (lines 76-142): a memoized-ish observable single-value loader.
  Mutable closure state (data, error, promise, loading, p, subscribers and
  the event broadcasts) is modelled by the record `AssetState`; the body of
  the async function `load` is split at its only suspension point
  (`data = await result`) into `loadCall` (the synchronous segment) and
  `loadResume` (the continuation), so interleavings can be expressed.
* `loader` (lines 146-228): the batch aggregator, modelled by `LoaderState`
  with the synchronous part of `start`, the `updateProgress` recomputation
  and the id index.

Subscriber callbacks are modelled as pure observers identified by numbers;
each broadcast (`subscribers.forEach((cb) => cb(status))`) appends one event
recording the status together with the subscriber set and the state fields
visible at emission time.  Mutation of the subscriber set *during* a
broadcast (JS `Set.forEach` live-iteration semantics) is modelled separately
by `forEachBroadcast`.
-/

/-- Status enum, lines 12-17 of the source. -/
inductive Status where
  | LOADING
  | LOADED
  | ERROR
  | PROGRESS
deriving DecidableEq, Repr

/-- One broadcast event as seen by subscribers: the status passed to the
callbacks, the subscriber set at emission time, and the values of the
closure variables loading and p at emission time. -/
structure Ev where
  status : Status
  subs : List Nat
  loading : Bool
  p : ℚ
deriving DecidableEq, Repr

/-- The closure state of one asset (lines 82-99): data, error, promise,
loading, the progress variable p, the subscriber set (insertion order),
plus a log of all broadcasts and a counter of load-function invocations. -/
structure AssetState (T : Type) where
  data : Option T := none
  error : Option String := none
  promiseSet : Bool := false
  loading : Bool := false
  p : ℚ := 0
  subs : List Nat := []
  log : List Ev := []
  fnCalls : Nat := 0

/-- Fresh asset state right after the closure variables are initialised
(lines 82-86). -/
def initAsset (T : Type) : AssetState T := {}

/-- subscribers.forEach((callback) => callback(status)): one broadcast,
recorded with the state visible to the callbacks. -/
def emit {T : Type} (st : AssetState T) (s : Status) : AssetState T :=
  { st with log := st.log ++ [⟨s, st.subs, st.loading, st.p⟩] }

/-- subscribe (lines 89-94): Set.add, deduplicated, insertion order kept. -/
def subscribe {T : Type} (st : AssetState T) (c : Nat) : AssetState T :=
  if c ∈ st.subs then st else { st with subs := st.subs ++ [c] }

/-- The unsubscribe closure returned by subscribe (lines 91-93). -/
def unsubscribe {T : Type} (st : AssetState T) (c : Nat) : AssetState T :=
  { st with subs := st.subs.erase c }

/-- updateProgress (lines 96-99): set p, broadcast PROGRESS. -/
def updateProgress {T : Type} (q : ℚ) (st : AssetState T) : AssetState T :=
  emit { st with p := q } .PROGRESS

/-- The sequence of updateProgress calls a load function makes while it
runs synchronously. -/
def runProgress {T : Type} (st : AssetState T) (ps : List ℚ) : AssetState T :=
  ps.foldl (fun s q => updateProgress q s) st

/-- Behaviour of a user-supplied load function (type AssetLoadFunction,
lines 23-25): the progress values it reports synchronously, and whether it
returns a plain value / throws (sync) or returns a promise that later
fulfills / rejects (async).  Errors are modelled by their message. -/
inductive LoadFn (T : Type) where
  | sync (ps : List ℚ) (res : Except String T)
  | async (ps : List ℚ) (res : Except String T)

/-- Lines 103-106 of load: loading = true, broadcast LOADING, invoke the
load function (counted), which performs its synchronous progress calls. -/
def loadBegin {T : Type} (st : AssetState T) (ps : List ℚ) : AssetState T :=
  let st := emit { st with loading := true } .LOADING
  runProgress { st with fnCalls := st.fnCalls + 1 } ps

/-- Lines 109/111 vs 113-115: on success store data; on a throw or a
rejection store error and broadcast ERROR. -/
def settleOutcome {T : Type} (res : Except String T) (st : AssetState T) :
    AssetState T :=
  match res with
  | .ok v => { st with data := some v }
  | .error e => emit { st with error := some e } .ERROR

/-- Lines 117-119: loading = false, p = 1, broadcast LOADED. -/
def settleFinish {T : Type} (st : AssetState T) : AssetState T :=
  emit { st with loading := false, p := 1 } .LOADED

/-- The synchronous segment of load() (lines 101-121): the guard on
loading, then the body up to the first await.  A sync load function runs
to completion here; an async one stops after promise = result. -/
def loadCall {T : Type} (st : AssetState T) (fn : LoadFn T) : AssetState T :=
  if st.loading then st
  else
    match fn with
    | .sync ps res => settleFinish (settleOutcome res (loadBegin st ps))
    | .async ps _ => { loadBegin st ps with promiseSet := true }

/-- The continuation of load() after data = await result settles
(lines 109 then 113-119). -/
def loadResume {T : Type} (res : Except String T) (st : AssetState T) :
    AssetState T :=
  settleFinish (settleOutcome res st)

/-- One uninterrupted execution of load(): the synchronous segment, and for
an async load function also the continuation once its promise settles. -/
def loadRun {T : Type} (st : AssetState T) (fn : LoadFn T) : AssetState T :=
  if st.loading then st
  else
    match fn with
    | .sync _ _ => loadCall st fn
    | .async _ res => loadResume res (loadCall st fn)

/-- The data getter (lines 124-129): if data is undefined and not loading,
call load() (only its synchronous segment runs before the getter returns),
then return the current data. -/
def dataGet {T : Type} (st : AssetState T) (fn : LoadFn T) :
    AssetState T × Option T :=
  if st.data.isNone && !st.loading then
    let st := loadCall st fn
    (st, st.data)
  else (st, st.data)

/-- The object literal returned by asset() (lines 123-141) copies the
closure variables error, loading and promise *by value*; data, id and
progress are getters.  No code path ever reassigns the copied fields, so
the publicly readable error/loading/promise of an asset are the values the
closure variables had at construction time. -/
structure AssetHandle where
  errorField : Option String
  loadingField : Bool
  promiseField : Bool
deriving DecidableEq, Repr

/-- Construction of the returned object (line 123): the copied fields are
read off the state at that moment. -/
def mkAssetHandle {T : Type} (st : AssetState T) : AssetHandle :=
  ⟨st.error, st.loading, st.promiseSet⟩

/-- The statuses a given subscriber observes: the statuses of exactly those
broadcasts whose subscriber set contained it. -/
def observed {T : Type} (st : AssetState T) (s : Nat) : List Status :=
  (st.log.filter (fun ev => ev.subs.contains s)).map (fun ev => ev.status)

/-! ## Loader (lines 146-228) -/

/-- JS truthiness on a number: x || 0 (line 158).  On the rationals the
only falsy number is 0. -/
def jsOrZero (q : ℚ) : ℚ := if q = 0 then 0 else q

/-- mapOfAssetsWithID, modelled as an association list: Map.set overwrites
the binding of a key, which is modelled by prepending the new binding and
letting lookup return the most recently prepended one - observationally
equivalent for Map.get.  Assets are identified by their registration
index. -/
def mapSet (m : List (String × Nat)) (k : String) (v : Nat) :
    List (String × Nat) :=
  (k, v) :: m

/-- loader.get (lines 206-208): Map.get, undefined when absent. -/
def loaderGet (m : List (String × Nat)) (k : String) : Option Nat :=
  (m.find? (fun e => e.1 = k)).map (fun e => e.2)

/-- The id-index part of addToLoader (line 167):
asset.id && mapOfAssetsWithID.set(asset.id, asset).  JS truthiness means
an undefined id *and* the empty-string id are skipped. -/
def addToLoader (m : List (String × Nat)) (cid : Option String) (tag : Nat) :
    List (String × Nat) :=
  match cid with
  | some i => if i = "" then m else mapSet m i tag
  | none => m

/-- A sequence of registrations (id, tag) applied in order by addToLoader,
starting from the empty index. -/
def registerList (rs : List (Option String × Nat)) : List (String × Nat) :=
  rs.foldl (fun m r => addToLoader m r.1 r.2) []

/-- The closure state of one loader (lines 147-153), together with a log of
its own broadcasts and counters of child-load and factory invocations.
nChildren is the length of the _assets array. -/
structure LoaderState where
  subs : List Nat := []
  idIndex : List (String × Nat) := []
  nChildren : Nat := 0
  promise : Option Nat := none
  loading : Bool := false
  error : Option String := none
  progress : ℚ := 0
  log : List Status := []
  childLoadCalls : Nat := 0
  factoryCalls : Nat := 0

/-- Fresh loader state (lines 147-153). -/
def initLoader : LoaderState := {}

/-- subscribers.forEach((callback) => callback(status)) on the loader. -/
def emitL (st : LoaderState) (s : Status) : LoaderState :=
  { st with log := st.log ++ [s] }

/-- loader.updateProgress (lines 155-163).  childPs is the list of the
progress getters of the assets currently in _assets; total is its length
(line 156); loaded is the reduce with asset.progress || 0 (lines 157-160);
progress is 0 when no asset is registered, else loaded / total (line 161);
finally PROGRESS is broadcast (line 162). -/
def loaderUpdateProgress (childPs : List ℚ) (st : LoaderState) : LoaderState :=
  let total : ℚ := childPs.length
  let loaded : ℚ := childPs.foldl (fun acc q => acc + jsOrZero q) 0
  emitL { st with progress := if total = 0 then 0 else loaded / total } .PROGRESS

/-- The registration part of addToLoader (lines 165-169): push onto
_assets, index by id.  (The asset.subscribe(updateProgress) call is
modelled at the call sites of loaderUpdateProgress.) -/
def registerAsset (st : LoaderState) (cid : Option String) : LoaderState :=
  { st with idIndex := addToLoader st.idIndex cid st.nChildren,
            nChildren := st.nChildren + 1 }

/-- One argument of loader(...assets) (type LoaderInput, line 144): a plain
asset, or a factory function producing assets asynchronously. -/
inductive LInput where
  | direct (cid : Option String)
  | factory

/-- The synchronous part of loader.start (lines 171-204).  Line 172 sets
loading unconditionally; line 173 returns the memoized promise when one
exists; otherwise LOADING is broadcast (line 174), the map over the inputs
runs (factories are invoked, line 178; plain assets are registered and
their load() is invoked, lines 189-190), and the Promise.all promise is
stored (line 175) and returned.  The broadcasts triggered by child loads,
the factory continuations and the catch/finally continuation (lines
194-202) are asynchronous and are modelled at the scenario level. -/
def start (inputs : List LInput) (st : LoaderState) : LoaderState × Nat :=
  let st := { st with loading := true }
  match st.promise with
  | some t => (st, t)
  | none =>
    let st := emitL st .LOADING
    let st := inputs.foldl
      (fun s inp =>
        match inp with
        | .factory => { s with factoryCalls := s.factoryCalls + 1 }
        | .direct cid =>
          let s := registerAsset s cid
          { s with childLoadCalls := s.childLoadCalls + 1 })
      st
    ({ st with promise := some 0 }, 0)

/-!
### The C1 scenario

loader(a, b).start() where a's load function immediately returns a promise
fulfilling with "a" and b's load function immediately returns a promise
rejecting with Error("x"); one observer (number 7) is subscribed to the
loader before start.  The sequence below follows the single-threaded event
loop: the synchronous part of start runs first (registering each asset
and running each child load() up to its await), then the already-settled
child promises resume the two load continuations in the order their awaits
were reached, and finally the Promise.all join settles.  Every broadcast of
a child asset invokes the loader's updateProgress (addToLoader subscribed
it, line 168) with the progress getters of the assets registered at that
moment. -/
def scenario : AssetState String × AssetState String × LoaderState :=
  let a := initAsset String
  let b := initAsset String
  let ld := { initLoader with subs := [7] }
  let ld := emitL { ld with loading := true } .LOADING
  let ld := registerAsset ld none
  let a := subscribe a 0
  let a := loadCall a (.async [] (.ok "a"))
  let ld := loaderUpdateProgress [a.p] ld
  let ld := registerAsset ld none
  let b := subscribe b 0
  let b := loadCall b (.async [] (.error "x"))
  let ld := loaderUpdateProgress [a.p, b.p] ld
  let ld := { ld with promise := some 0 }
  let a := loadResume (.ok "a") a
  let ld := loaderUpdateProgress [a.p, b.p] ld
  let b := settleOutcome (.error "x") b
  let ld := loaderUpdateProgress [a.p, b.p] ld
  let b := settleFinish b
  let ld := loaderUpdateProgress [a.p, b.p] ld
  let ld := emitL { ld with loading := false } .LOADED
  (a, b, ld)

/-!
### Broadcast with live mutation of the subscriber set (C8)

subscribers is a JS Set and a broadcast iterates it with forEach while
callbacks may delete members through their unsubscribe closures.  JS
Set.forEach visits members in insertion order, each at most once, and
skips a member that was deleted before being visited.  A callback is
modelled by the set of members it deletes when invoked. -/
structure SubEntry where
  id : Nat
  deletes : List Nat
deriving DecidableEq, Repr

/-- subscribers.forEach((callback) => callback(status)) under deletions
performed by the callbacks themselves: subs is the insertion-order list of
the Set's members, deleted accumulates the members removed so far, called
accumulates the callbacks invoked so far. -/
def forEachBroadcast : List SubEntry → List Nat → List Nat → List Nat
  | [], _, called => called
  | s :: rest, deleted, called =>
    if s.id ∈ deleted then forEachBroadcast rest deleted called
    else forEachBroadcast rest (deleted ++ s.deletes) (called ++ [s.id])

/-- The callbacks invoked by one broadcast over the given Set. -/
def broadcastCalled (subs : List SubEntry) : List Nat :=
  forEachBroadcast subs [] []

/-! ## Helper lemmas -/

theorem jsOrZero_eq (q : ℚ) : jsOrZero q = q := by
  unfold jsOrZero
  split
  · simp_all
  · rfl

/-- A run of synchronous updateProgress calls: p ends at the last reported
value, one PROGRESS event is appended per call, everything else is
untouched. -/
theorem runProgress_eq {T : Type} (ps : List ℚ) (st : AssetState T) :
    runProgress st ps =
      { st with p := ps.getLastD st.p,
                log := st.log ++
                  ps.map (fun q => Ev.mk .PROGRESS st.subs st.loading q) } := by
  induction ps generalizing st with
  | nil => simp [runProgress]
  | cons q qs ih =>
    have h1 : runProgress st (q :: qs) = runProgress (updateProgress q st) qs := by
      simp [runProgress]
    rw [h1, ih]
    cases st
    simp only [updateProgress, emit]
    cases qs <;> simp [List.getLast?_cons]

/-- Uninterrupted load of a sync load function that returns v. -/
theorem loadRun_sync_ok {T : Type} (st : AssetState T) (ps : List ℚ) (v : T)
    (h : st.loading = false) :
    loadRun st (.sync ps (.ok v)) =
      { st with data := some v, p := 1, loading := false,
                fnCalls := st.fnCalls + 1,
                log := st.log ++ [⟨.LOADING, st.subs, true, st.p⟩]
                  ++ ps.map (fun q => Ev.mk .PROGRESS st.subs true q)
                  ++ [⟨.LOADED, st.subs, false, 1⟩] } := by
  cases st
  subst h
  simp [loadRun, loadCall, loadBegin, settleOutcome, settleFinish, emit,
    runProgress_eq]

/-- Uninterrupted load of a sync load function that throws e. -/
theorem loadRun_sync_err {T : Type} (st : AssetState T) (ps : List ℚ) (e : String)
    (h : st.loading = false) :
    loadRun st (.sync ps (.error e)) =
      { st with error := some e, p := 1, loading := false,
                fnCalls := st.fnCalls + 1,
                log := st.log ++ [⟨.LOADING, st.subs, true, st.p⟩]
                  ++ ps.map (fun q => Ev.mk .PROGRESS st.subs true q)
                  ++ [⟨.ERROR, st.subs, true, ps.getLastD st.p⟩,
                      ⟨.LOADED, st.subs, false, 1⟩] } := by
  cases st
  subst h
  simp [loadRun, loadCall, loadBegin, settleOutcome, settleFinish, emit,
    runProgress_eq]

/-- Uninterrupted load of an async load function whose promise fulfills
with v. -/
theorem loadRun_async_ok {T : Type} (st : AssetState T) (ps : List ℚ) (v : T)
    (h : st.loading = false) :
    loadRun st (.async ps (.ok v)) =
      { st with data := some v, p := 1, loading := false, promiseSet := true,
                fnCalls := st.fnCalls + 1,
                log := st.log ++ [⟨.LOADING, st.subs, true, st.p⟩]
                  ++ ps.map (fun q => Ev.mk .PROGRESS st.subs true q)
                  ++ [⟨.LOADED, st.subs, false, 1⟩] } := by
  cases st
  subst h
  simp [loadRun, loadCall, loadResume, loadBegin, settleOutcome, settleFinish,
    emit, runProgress_eq]

/-- Uninterrupted load of an async load function whose promise rejects
with e. -/
theorem loadRun_async_err {T : Type} (st : AssetState T) (ps : List ℚ) (e : String)
    (h : st.loading = false) :
    loadRun st (.async ps (.error e)) =
      { st with error := some e, p := 1, loading := false, promiseSet := true,
                fnCalls := st.fnCalls + 1,
                log := st.log ++ [⟨.LOADING, st.subs, true, st.p⟩]
                  ++ ps.map (fun q => Ev.mk .PROGRESS st.subs true q)
                  ++ [⟨.ERROR, st.subs, true, ps.getLastD st.p⟩,
                      ⟨.LOADED, st.subs, false, 1⟩] } := by
  cases st
  subst h
  simp [loadRun, loadCall, loadResume, loadBegin, settleOutcome, settleFinish,
    emit, runProgress_eq]

/-- For a sync load function, the synchronous segment of load() is the
whole run. -/
theorem loadCall_sync_eq_loadRun {T : Type} (st : AssetState T) (ps : List ℚ)
    (res : Except String T) :
    loadCall st (.sync ps res) = loadRun st (.sync ps res) := by
  cases h : st.loading
  · simp [loadRun, h]
  · simp [loadRun, loadCall, h]

/-! ## Claim theorems: Asset -/

/-- C2 (code bug evaluation): after a load whose load function throws
Error("x"), the internal closure variable error holds the error, but the
publicly readable error of the object returned by asset() is still
undefined: the object literal (lines 123-141) copied the closure variable
by value at construction and nothing ever updates the copy. -/
theorem public_error_never_set :
    (loadRun (initAsset String) (.sync [] (.error "x"))).error = some "x"
      ∧ (mkAssetHandle (initAsset String)).errorField = none := by
  decide

/-- C3 (counterexample): two sequential load() calls on the same asset run
the load function twice; the guard at line 102 only checks loading, which
is false again after the first load settles, so execution is not
at-most-once over every sequence of load() calls. -/
theorem load_reruns_after_completion :
    (loadRun (loadRun (initAsset Nat) (.sync [] (.ok 42)))
      (.sync [] (.ok 42))).fnCalls = 2 := by
  decide

/-- Every completed load() run from a non-loading state invokes the load
function exactly once and ends with loading false, whatever the load
function's mode and outcome. -/
theorem loadRun_fnCalls_succ {T : Type} (st : AssetState T) (fn : LoadFn T)
    (h : st.loading = false) :
    (loadRun st fn).fnCalls = st.fnCalls + 1
      ∧ (loadRun st fn).loading = false := by
  cases fn with
  | sync ps res =>
    cases res with
    | ok v => rw [loadRun_sync_ok st ps v h]; exact ⟨rfl, rfl⟩
    | error e => rw [loadRun_sync_err st ps e h]; exact ⟨rfl, rfl⟩
  | async ps res =>
    cases res with
    | ok v => rw [loadRun_async_ok st ps v h]; exact ⟨rfl, rfl⟩
    | error e => rw [loadRun_async_err st ps e h]; exact ⟨rfl, rfl⟩

/-- C3 (amended): a load() call while loading is true is a no-op that does
not run the load function; but on every asset that is not loading - in
particular one whose previous load has completed, successfully or not -
each of two successive load() calls runs the load function again, for
every combination of sync/async and success/failure behaviours. -/
theorem load_noop_while_loading_reruns_after :
    (∀ (T : Type) (st : AssetState T) (fn : LoadFn T),
        st.loading = true → loadCall st fn = st ∧ loadRun st fn = st)
      ∧ (∀ (T : Type) (st : AssetState T) (fn fn' : LoadFn T),
          st.loading = false →
            (loadRun (loadRun st fn) fn').fnCalls = st.fnCalls + 2) := by
  constructor
  · intro T st fn h
    constructor <;> simp [loadCall, loadRun, h]
  · intro T st fn fn' h
    have h1 := loadRun_fnCalls_succ st fn h
    have h2 := loadRun_fnCalls_succ (loadRun st fn) fn' h1.2
    omega

/-- C3 witness: the no-op part at a concrete loading state, and the rerun
part at a concrete asset whose first load fails and whose second load is
async-failing as well. -/
theorem load_noop_while_loading_witness :
    (loadCall { initAsset Nat with loading := true } (.sync [] (.ok 0)) =
        { initAsset Nat with loading := true }
      ∧ loadRun { initAsset Nat with loading := true } (.sync [] (.ok 0)) =
        { initAsset Nat with loading := true })
    ∧ (loadRun (loadRun (initAsset Nat) (.sync [] (.error "e")))
        (.async [] (.error "e"))).fnCalls = (initAsset Nat).fnCalls + 2 :=
  ⟨load_noop_while_loading_reruns_after.1 Nat
      { initAsset Nat with loading := true } (.sync [] (.ok 0)) rfl,
    load_noop_while_loading_reruns_after.2 Nat (initAsset Nat)
      (.sync [] (.error "e")) (.async [] (.error "e")) rfl⟩

/-- C4: whenever the load function fails (a sync throw or an async
rejection), every subscriber that was registered before the failure
observes, after whatever it had already observed, LOADING, one PROGRESS
per synchronous progress report, then ERROR followed by LOADED; the full
log shows that the ERROR broadcast happens while loading is still true and
before p is forced to 1, and the LOADED broadcast happens after loading is
cleared and p is 1. -/
theorem error_then_loaded_on_failure {T : Type} (st : AssetState T)
    (ps : List ℚ) (e : String) (s : Nat) (fn : LoadFn T)
    (hs : s ∈ st.subs) (hl : st.loading = false)
    (hfn : fn = .sync ps (.error e) ∨ fn = .async ps (.error e)) :
    observed (loadRun st fn) s =
      observed st s ++ [.LOADING] ++ List.replicate ps.length .PROGRESS
        ++ [.ERROR, .LOADED]
    ∧ (loadRun st fn).log =
        st.log ++ [⟨.LOADING, st.subs, true, st.p⟩]
          ++ ps.map (fun q => Ev.mk .PROGRESS st.subs true q)
          ++ [⟨.ERROR, st.subs, true, ps.getLastD st.p⟩,
              ⟨.LOADED, st.subs, false, 1⟩] := by
  have hc : st.subs.contains s = true := by
    simpa using hs
  rcases hfn with h | h <;> subst h
  · rw [loadRun_sync_err st ps e hl]
    refine ⟨?_, by simp⟩
    simp [observed, List.filter_append, List.filter_map, hs,
      Function.comp_def, List.map_const']
  · rw [loadRun_async_err st ps e hl]
    refine ⟨?_, by simp⟩
    simp [observed, List.filter_append, List.filter_map, hs,
      Function.comp_def, List.map_const']

/-- C4 witness at a concrete failing asset with one subscriber. -/
theorem error_then_loaded_witness :
    observed (loadRun (subscribe (initAsset Nat) 3) (.sync [] (.error "x"))) 3 =
      observed (subscribe (initAsset Nat) 3) 3 ++ [.LOADING]
        ++ List.replicate ([] : List ℚ).length .PROGRESS ++ [.ERROR, .LOADED]
    ∧ (loadRun (subscribe (initAsset Nat) 3) (.sync [] (.error "x"))).log =
        (subscribe (initAsset Nat) 3).log
          ++ [⟨.LOADING, (subscribe (initAsset Nat) 3).subs, true,
              (subscribe (initAsset Nat) 3).p⟩]
          ++ ([] : List ℚ).map
              (fun q => Ev.mk .PROGRESS (subscribe (initAsset Nat) 3).subs true q)
          ++ [⟨.ERROR, (subscribe (initAsset Nat) 3).subs, true,
              ([] : List ℚ).getLastD (subscribe (initAsset Nat) 3).p⟩,
              ⟨.LOADED, (subscribe (initAsset Nat) 3).subs, false, 1⟩] :=
  error_then_loaded_on_failure (subscribe (initAsset Nat) 3) [] "x" 3
    (.sync [] (.error "x")) (by decide) rfl (Or.inl rfl)

/-- C5: after an uninterrupted load settles, whether the load function
succeeded or failed, sync or async, p is 1 and loading is false. -/
theorem settled_progress_one_loading_false {T : Type} (st : AssetState T)
    (fn : LoadFn T) (hl : st.loading = false) :
    (loadRun st fn).p = 1 ∧ (loadRun st fn).loading = false := by
  cases fn with
  | sync ps res =>
    cases res with
    | ok v => rw [loadRun_sync_ok st ps v hl]; exact ⟨rfl, rfl⟩
    | error e => rw [loadRun_sync_err st ps e hl]; exact ⟨rfl, rfl⟩
  | async ps res =>
    cases res with
    | ok v => rw [loadRun_async_ok st ps v hl]; exact ⟨rfl, rfl⟩
    | error e => rw [loadRun_async_err st ps e hl]; exact ⟨rfl, rfl⟩

/-- C5 witness at a concrete failing asset. -/
theorem settled_progress_one_witness :
    (loadRun (initAsset Nat) (.async [] (.error "x"))).p = 1
      ∧ (loadRun (initAsset Nat) (.async [] (.error "x"))).loading = false :=
  settled_progress_one_loading_false (initAsset Nat) (.async [] (.error "x")) rfl

/-- C10: on an idle asset (no data, not loading) whose load function is
synchronous and returns a value, the first read of the data getter runs
the whole load synchronously - data stored, p forced to 1, loading
cleared, LOADED broadcast appended - and that same read already returns
the loaded value. -/
theorem data_getter_runs_sync_load {T : Type} (st : AssetState T)
    (ps : List ℚ) (v : T) (hd : st.data = none) (hl : st.loading = false) :
    (dataGet st (.sync ps (.ok v))).2 = some v
    ∧ (dataGet st (.sync ps (.ok v))).1 =
        { st with data := some v, p := 1, loading := false,
                  fnCalls := st.fnCalls + 1,
                  log := st.log ++ [⟨.LOADING, st.subs, true, st.p⟩]
                    ++ ps.map (fun q => Ev.mk .PROGRESS st.subs true q)
                    ++ [⟨.LOADED, st.subs, false, 1⟩] } := by
  have hc : (st.data.isNone && !st.loading) = true := by
    rw [hd, hl]
    rfl
  have h1 : dataGet st (.sync ps (.ok v)) =
      (loadCall st (.sync ps (.ok v)), (loadCall st (.sync ps (.ok v))).data) := by
    simp [dataGet, hc]
  rw [h1, loadCall_sync_eq_loadRun, loadRun_sync_ok st ps v hl]
  exact ⟨rfl, rfl⟩

/-- C10 witness at a concrete idle asset. -/
theorem data_getter_witness :
    (dataGet (initAsset Nat) (.sync [] (.ok 9))).2 = some 9
    ∧ (dataGet (initAsset Nat) (.sync [] (.ok 9))).1 =
        { initAsset Nat with data := some 9, p := 1, loading := false,
                             fnCalls := (initAsset Nat).fnCalls + 1,
                             log := (initAsset Nat).log
                               ++ [⟨.LOADING, (initAsset Nat).subs, true,
                                   (initAsset Nat).p⟩]
                               ++ ([] : List ℚ).map
                                 (fun q => Ev.mk .PROGRESS (initAsset Nat).subs true q)
                               ++ [⟨.LOADED, (initAsset Nat).subs, false, 1⟩] } :=
  data_getter_runs_sync_load (initAsset Nat) [] 9 rfl rfl
/-! ## Claim theorems: Loader -/

theorem foldl_jsOrZero_sum (ps : List ℚ) (acc : ℚ) :
    ps.foldl (fun a q => a + jsOrZero q) acc = acc + ps.sum := by
  induction ps generalizing acc with
  | nil => simp
  | cons q qs ih => rw [List.foldl_cons, ih, jsOrZero_eq, List.sum_cons, add_assoc]

/-- C6: at every recomputation the loader's progress is the arithmetic
mean (sum divided by count) of the registered assets' progress values, and
0 when no asset is registered yet. -/
theorem loader_progress_mean (childPs : List ℚ) (st : LoaderState) :
    (childPs ≠ [] →
      (loaderUpdateProgress childPs st).progress =
        childPs.sum / childPs.length)
    ∧ (childPs = [] → (loaderUpdateProgress childPs st).progress = 0) := by
  constructor
  · intro h
    have hlen : ((childPs.length : ℚ) = 0) = False := by
      simp [List.length_eq_zero, h]
    simp [loaderUpdateProgress, emitL, foldl_jsOrZero_sum, hlen]
  · intro h
    subst h
    simp [loaderUpdateProgress, emitL]

/-- C6 witness: one registered asset reporting progress 1. -/
theorem loader_progress_mean_witness :
    ([1] : List ℚ) ≠ []
    ∧ (loaderUpdateProgress [1] initLoader).progress =
        ([1] : List ℚ).sum / (([1] : List ℚ).length : ℚ) :=
  ⟨by decide, (loader_progress_mean [1] initLoader).1 (by decide)⟩

/-- C7: once a promise is memoized, every further start() call returns the
same promise and changes nothing except re-setting loading; in particular
no child load and no factory is invoked again and nothing is re-registered. -/
theorem start_idempotent (inputs : List LInput) (st : LoaderState) (t : Nat)
    (h : st.promise = some t) :
    start inputs st = ({ st with loading := true }, t)
    ∧ (start inputs st).1.childLoadCalls = st.childLoadCalls
    ∧ (start inputs st).1.factoryCalls = st.factoryCalls
    ∧ (start inputs st).1.nChildren = st.nChildren := by
  have hmain : start inputs st = ({ st with loading := true }, t) := by
    simp [start, h]
  refine ⟨hmain, ?_, ?_, ?_⟩ <;> rw [hmain]

/-- C7 witness: a second start() call right after the first returns the
promise created by the first call. -/
theorem start_idempotent_witness :
    start [LInput.direct none] (start [LInput.direct none] initLoader).1 =
      ({ (start [LInput.direct none] initLoader).1 with loading := true }, 0)
    ∧ (start [LInput.direct none]
        (start [LInput.direct none] initLoader).1).1.childLoadCalls =
        (start [LInput.direct none] initLoader).1.childLoadCalls
    ∧ (start [LInput.direct none]
        (start [LInput.direct none] initLoader).1).1.factoryCalls =
        (start [LInput.direct none] initLoader).1.factoryCalls
    ∧ (start [LInput.direct none]
        (start [LInput.direct none] initLoader).1).1.nChildren =
        (start [LInput.direct none] initLoader).1.nChildren :=
  start_idempotent [LInput.direct none]
    (start [LInput.direct none] initLoader).1 0 rfl

/-- C1 (counterexample): in the two-asset scenario with one child
rejecting with Error("x"), the loader's error is never set and no ERROR
event is ever broadcast on the loader, contradicting the claimed final
error.message = "x" and the claimed ERROR observation: asset.load()
catches the rejection itself and fulfills with undefined, so the
Promise.all join fulfills and the catch handler at line 195 never runs. -/
theorem loader_error_scenario_counterexample :
    scenario.2.2.error = none ∧ Status.ERROR ∉ scenario.2.2.log := by
  decide

/-- C1 (amended): after the join settles, the loader's error is undefined
and its subscribers observe LOADED but no ERROR; loading is false.  The
rejection is recorded on the failing child asset only: its error is
Error("x") and it broadcasts ERROR itself; the other child holds "a". -/
theorem loader_error_scenario_amended :
    scenario.2.2.error = none
    ∧ scenario.2.2.loading = false
    ∧ scenario.2.2.log =
        [.LOADING, .PROGRESS, .PROGRESS, .PROGRESS, .PROGRESS, .PROGRESS,
         .LOADED]
    ∧ scenario.2.1.error = some "x"
    ∧ Status.ERROR ∈ scenario.2.1.log.map (fun ev => ev.status)
    ∧ scenario.1.data = some "a" := by
  decide

/-- C9 (counterexample): two assets carrying the id "" are registered, yet
get "" returns undefined rather than the most recently registered of
them: line 167 guards the index insertion with JS truthiness, and the
empty string is falsy. -/
theorem get_empty_id_counterexample :
    loaderGet (registerList [(some "", 0), (some "", 1)]) "" = none := by
  decide

/-- Lookup after one registration step: a registration carrying exactly
the looked-up (non-empty) id wins, anything else leaves the lookup
unchanged. -/
theorem loaderGet_addToLoader (m : List (String × Nat)) (cid : Option String)
    (tag : Nat) (i : String) (hi : i ≠ "") :
    loaderGet (addToLoader m cid tag) i =
      if cid = some i then some tag else loaderGet m i := by
  cases cid with
  | none => simp [addToLoader]
  | some j =>
    by_cases hj : j = ""
    · subst hj
      have : (some "" = some i) = False := by simp [Ne.symm hi]
      simp [addToLoader, this]
    · by_cases hji : j = i
      · subst hji
        simp [addToLoader, hj, mapSet, loaderGet, List.find?_cons]
      · simp [addToLoader, hj, mapSet, loaderGet, List.find?_cons, hji]

/-- Folding a whole registration sequence: lookup of a non-empty id is the
most recent registration carrying it, falling back to the initial index. -/
theorem loaderGet_registerFold (rs : List (Option String × Nat))
    (m : List (String × Nat)) (i : String) (hi : i ≠ "") :
    loaderGet (rs.foldl (fun acc r => addToLoader acc r.1 r.2) m) i =
      ((rs.reverse.find? (fun r => r.1 = some i)).map (fun r => r.2)).or
        (loaderGet m i) := by
  induction rs generalizing m with
  | nil => simp
  | cons r rest ih =>
    rw [List.foldl_cons, ih (addToLoader m r.1 r.2),
      loaderGet_addToLoader m r.1 r.2 i hi]
    rw [List.reverse_cons, List.find?_append]
    by_cases hr : r.1 = some i
    · cases hfind : rest.reverse.find? (fun r => r.1 = some i) <;>
        simp [List.find?_cons, hr, hfind]
    · cases hfind : rest.reverse.find? (fun r => r.1 = some i) <;>
        simp [List.find?_cons, hr, hfind]

/-- C9 (amended): for a non-empty id, get returns the most recently
registered asset carrying that id (the first hit scanning registrations
from most recent to oldest) and undefined when no registration carries
it - in particular for ids never registered and regardless of id-less
registrations.  Empty-string ids are falsy at line 167 and never indexed. -/
theorem get_returns_most_recent (rs : List (Option String × Nat)) (i : String)
    (hi : i ≠ "") :
    loaderGet (registerList rs) i =
      (rs.reverse.find? (fun r => r.1 = some i)).map (fun r => r.2) := by
  have h := loaderGet_registerFold rs [] i hi
  simpa [registerList, loaderGet] using h

/-- C9 witness: duplicates of "a" across an id-less registration resolve
to the most recent, and a never-registered id gives undefined. -/
theorem get_returns_most_recent_witness :
    loaderGet (registerList [(some "a", 0), (none, 1), (some "a", 2)]) "a" =
      (([(some "a", 0), (none, 1), (some "a", 2)] :
          List (Option String × Nat)).reverse.find?
        (fun r => r.1 = some "a")).map (fun r => r.2) :=
  get_returns_most_recent [(some "a", 0), (none, 1), (some "a", 2)] "a"
    (by decide)

/-! ## Claim theorems: broadcast under re-entrant unsubscribe (C8) -/

/-- C8 (counterexample): in a broadcast over three subscribers, the first
callback unsubscribes the third; JS Set.forEach skips members deleted
before being visited, so the third already-subscribed callback never
receives that broadcast. -/
theorem broadcast_unsub_other_skips :
    broadcastCalled [⟨0, [2]⟩, ⟨1, []⟩, ⟨2, []⟩] = [0, 1]
    ∧ 2 ∉ broadcastCalled [⟨0, [2]⟩, ⟨1, []⟩, ⟨2, []⟩] := by
  decide

theorem forEachBroadcast_no_future_unsub (subs : List SubEntry)
    (deleted called : List Nat)
    (h1 : (subs.map (fun s => s.id)).Nodup)
    (h2 : subs.Pairwise (fun a b => b.id ∉ a.deletes))
    (h3 : ∀ s ∈ subs, s.id ∉ deleted) :
    forEachBroadcast subs deleted called =
      called ++ subs.map (fun s => s.id) := by
  induction subs generalizing deleted called with
  | nil => simp [forEachBroadcast]
  | cons s rest ih =>
    have hnd : s.id ∉ deleted := h3 s (by simp)
    rw [forEachBroadcast, if_neg hnd]
    rw [ih (deleted ++ s.deletes) (called ++ [s.id])
      (by simpa using h1.of_cons)
      (List.pairwise_cons.mp h2).2
      ?_]
    · simp
    · intro r hr
      simp only [List.mem_append, not_or]
      exact ⟨h3 r (by simp [hr]), (List.pairwise_cons.mp h2).1 r hr⟩

/-- C8 (amended): with distinct subscribers, as long as no callback
unsubscribes a not-yet-invoked *other* subscriber - i.e. each callback
deletes only itself, subscribers already invoked earlier in the broadcast,
or non-members - every subscriber is called exactly once, in order: none
skipped, none duplicated.  (Unsubscribing a not-yet-invoked other
subscriber skips it, per the counterexample.)  The hypothesis is the
Pairwise condition that no earlier subscriber's delete set contains a
later subscriber's id. -/
theorem broadcast_self_unsub_no_skip (subs : List SubEntry)
    (h1 : (subs.map (fun s => s.id)).Nodup)
    (h2 : subs.Pairwise (fun a b => b.id ∉ a.deletes)) :
    broadcastCalled subs = subs.map (fun s => s.id) := by
  have h := forEachBroadcast_no_future_unsub subs [] [] h1 h2 (by simp)
  simpa [broadcastCalled] using h

/-- C8 witness: three subscribers; the first unsubscribes itself, the
second unsubscribes the already-invoked first, the third unsubscribes the
already-invoked second; all three are still called once each, in order. -/
theorem broadcast_self_unsub_witness :
    broadcastCalled [⟨0, [0]⟩, ⟨1, [0]⟩, ⟨2, [1]⟩] =
      ([⟨0, [0]⟩, ⟨1, [0]⟩, ⟨2, [1]⟩] : List SubEntry).map (fun s => s.id) :=
  broadcast_self_unsub_no_skip [⟨0, [0]⟩, ⟨1, [0]⟩, ⟨2, [1]⟩]
    (by decide) (by decide)

